import Mathlib

/-!
Verification of the `uni_form_tags` template-tag module of django-uni-form
(src/uni_form/templatetags/uni_form_tags.py), as a shallow embedding.

Python dictionaries are modelled as association lists with insertion-order
preserving update; the heterogeneous values living in helper-attribute
mappings and template contexts are modelled by the inductives `AVal` and
`PyVal`; exceptions are modelled with `Except PyErr`; the side effects of a
render (method invocations, template-variable resolutions, layout-rendering
calls) are recorded in an explicit event trace `List Event`.
-/

namespace UniForm

/-- A button-like input specification (submit / reset / hidden / button).
Modelled from the spec: the `Input` variants live in `uni_form/helpers.py`,
which is not under src/; each carries a `name` and a `value`. -/
inductive Input where
  | submit (name value : String)
  | reset (name value : String)
  | hidden (name value : String)
  | button (name value : String)
deriving DecidableEq

/-- A value stored in a helper attribute mapping (the result of
`helper.get_attr()`): a string, a list of inputs, or a set of field
identifiers (the `toggle_fields` value, modelled as a list). -/
inductive AVal where
  | str (s : String)
  | inputs (l : List Input)
  | toggles (ids : List String)
deriving DecidableEq

/-- A helper attribute mapping: a Python dict with string keys. -/
abbrev AttrDict := List (String × AVal)

/-- Python `d.get(k, dflt)` on an attribute mapping. -/
def dictGet (d : AttrDict) (k : String) (dflt : AVal) : AVal :=
  match d.lookup k with
  | some v => v
  | none => dflt

/-- Python `k in d` on an attribute mapping (key membership). -/
def dictHasKey (d : AttrDict) (k : String) : Bool :=
  (d.lookup k).isSome

/-- Python truthiness of a substring test `needle in hay` on strings. -/
def strContains (hay needle : String) : Bool :=
  needle == "" || (hay.splitOn needle).length > 1

/-- Python truthiness of an attribute value: a string is truthy iff
non-empty, a list iff non-empty, a set iff non-empty. -/
def AVal.truthy : AVal → Bool
  | .str s => !(s == "")
  | .inputs l => !l.isEmpty
  | .toggles ids => !ids.isEmpty

/-- Python membership `x in v` for a string `x`: substring test on a
string value, set membership on a toggle set, and `False` on a list of
input objects (a string never equals an input object). -/
def AVal.memStr (x : String) : AVal → Bool
  | .str s => strContains s x
  | .inputs _ => false
  | .toggles ids => ids.contains x

/-- A bound field of a form: the template tags only read its `auto_id`
identifier; the field name is kept as the rest of its identity. -/
structure Field where
  name : String
  auto_id : String
deriving DecidableEq

/-- A bound form: an iterable of bound fields.  `form_html` models the
Python attribute of the same name, which is absent (`none`) until the
formset tag assigns it. -/
structure Form where
  fields : List Field
  form_html : Option String := none
deriving DecidableEq

/-- A formset: its `forms` sequence of sub-forms. -/
structure Formset where
  forms : List Form
deriving DecidableEq

/-- A child of a layout fieldset: a field-name reference, a row of field
names, or a raw HTML fragment.  Modelled from the spec: the layout node
kinds live in `uni_form/helpers.py`, which is not under src/. -/
inductive LayoutItem where
  | fieldName (name : String)
  | row (names : List String)
  | htmlFrag (s : String)
deriving DecidableEq

/-- A layout fieldset: a legend plus an ordered sequence of children.
Modelled from the spec (`uni_form/helpers.py` is not under src/). -/
structure Fieldset where
  legend : String
  children : List LayoutItem
deriving DecidableEq

/-- A layout: an ordered sequence of fieldsets.  Modelled from the spec
(`uni_form/helpers.py` is not under src/). -/
structure Layout where
  fieldsets : List Fieldset
deriving DecidableEq

/-- A form helper.  Modelled from the spec: `uni_form/helpers.py` is not
under src/; the template tags use exactly three things from a helper:
`get_attr()` (the flattened attribute mapping, field `attrs`), the
optional attached `layout`, and the `render_layout` method that turns a
bound form into a markup string.  `render_layout` is kept opaque (an
arbitrary function) since only its results flow through the tags. -/
structure Helper where
  attrs : AttrDict
  layout : Option Layout
  render_layout : Form → String

/-- A value stored in a template context or in a response dictionary. -/
inductive PyVal where
  | pynone
  | str (s : String)
  | aval (v : AVal)
  | attrsD (d : AttrDict)
  | formV (f : Form)
  | fieldsV (l : List Field)
  | formsetV (fs : Formset)
  | helperV (h : Helper)

/-- Python truthiness of a context value: `None` is falsy, strings and
collections are truthy iff non-empty, and form / formset / helper objects
are always truthy. -/
def PyVal.truthy : PyVal → Bool
  | .pynone => false
  | .str s => !(s == "")
  | .aval v => v.truthy
  | .attrsD d => !d.isEmpty
  | .formV _ => true
  | .fieldsV l => !l.isEmpty
  | .formsetV _ => true
  | .helperV _ => true

/-- A template context / response dictionary: a Python dict with string
keys and heterogeneous values. -/
abbrev TCtx := List (String × PyVal)

/-- Python `d[k] = v` on a dict: replace in place if the key exists
(keeping its position), otherwise append (insertion order). -/
def dictSet (d : TCtx) (k : String) (v : PyVal) : TCtx :=
  match d with
  | [] => [(k, v)]
  | (k2, v2) :: rest =>
    if k2 == k then (k, v) :: rest else (k2, v2) :: dictSet rest k v

/-- The exceptions the rendering path can raise. -/
inductive PyErr where
  | notImplementedError (msg : String)
  | variableDoesNotExist (name : String)
  | attributeError (attr : String)
  | typeError (msg : String)
  | indexError
deriving DecidableEq

/-- An observable step of a render: a `get_attr()` method invocation on a
helper, a template-variable resolution (tagged by which variable slot of
the node resolved), or a `render_layout` call on a form. -/
inductive Event where
  | getAttr
  | resolveHelper (name : Option String)
  | resolveForm (name : String)
  | resolveFormset (name : String)
  | renderLayout (f : Form)
deriving DecidableEq

/-- Resolution of a template variable against the context
(`template.Variable(name).resolve(context)`): a missing name is a hard
resolution error surfaced by the host framework. -/
def Variable.resolve (name : String) (ctx : TCtx) : Except PyErr PyVal :=
  match ctx.lookup name with
  | some v => .ok v
  | none => .error (.variableDoesNotExist name)

/-- Modelled from the spec: the host framework's handling of the helper
variable slot is outside src/.  `do_uni_form` / `do_uni_form_set` store
`None` in the helper slot when the argument is omitted (spec: "helper
(optional)"); a present variable name is resolved against the context as
usual, and an omitted helper resolves to Python `None`, which the
`if helper:` guards downstream treat as "no helper". -/
def resolveHelperVar (name : Option String) (ctx : TCtx) : Except PyErr PyVal :=
  match name with
  | some n => Variable.resolve n ctx
  | none => .ok .pynone

/-- The `attrs = {}; if helper: attrs = helper.get_attr()` step of
`HelperHandlerNode.get_render`: a truthy helper value has its `get_attr`
method invoked (recorded as an event); a truthy value that is not a helper
object has no such method (AttributeError); a falsy value is left alone
and the empty mapping is used. -/
def helperGetAttrs (hv : PyVal) : List Event × Except PyErr AttrDict :=
  if hv.truthy then
    match hv with
    | .helperV h => ([.getAttr], .ok h.attrs)
    | _ => ([], .error (.attributeError "get_attr"))
  else ([], .ok [])

/-- `HelperHandlerNode.get_response_context`: extract the form-level
attributes from the helper attribute mapping, with defaults for the absent
ones, in the dict-literal order of the source. -/
def HelperHandlerNode.get_response_context (helper_attrs : AttrDict) : TCtx :=
  let form_method := dictGet helper_attrs "form_method" (.str "POST")
  let form_action := dictGet helper_attrs "form_action" (.str "")
  let form_class := dictGet helper_attrs "class" (.str "")
  let form_id := dictGet helper_attrs "id" (.str "")
  let inputs := dictGet helper_attrs "inputs" (.inputs [])
  [("form_action", .aval form_action),
   ("form_method", .aval form_method),
   ("attrs", .attrsD helper_attrs),
   ("form_class", .aval form_class),
   ("form_id", .aval form_id),
   ("inputs", .aval inputs)]

/-- Python iteration `for field in actual_form`: only a form value yields
its bound fields; iterating any other of the values modelled here is a
TypeError in the host. -/
def PyVal.iterFields : PyVal → Except PyErr (List Field)
  | .formV f => .ok f.fields
  | _ => .error (.typeError "argument is not iterable")

/-- `BasicNode.get_response_context`: resolve the form variable, compute
the toggle-field partition from the `toggle_fields` attribute (empty when
the attribute is absent or falsy), build the base response context, then
store `form`, `toggle_fields` and (from the helper's layout, if any)
`form_html`.  Returns the event trace together with the outcome. -/
def BasicNode.get_response_context (formVar : String) (ctx : TCtx)
    (hv : PyVal) (helper_attrs : AttrDict) :
    List Event × Except PyErr TCtx :=
  match Variable.resolve formVar ctx with
  | .error e => ([.resolveForm formVar], .error e)
  | .ok fv =>
    let toggle_fields := dictGet helper_attrs "toggle_fields" (.toggles [])
    let togglesRes : Except PyErr (List Field) :=
      if toggle_fields.truthy then
        match fv.iterFields with
        | .error e => .error e
        | .ok fields =>
          .ok (fields.filter (fun field => AVal.memStr field.auto_id toggle_fields))
      else .ok []
    match togglesRes with
    | .error e => ([.resolveForm formVar], .error e)
    | .ok final_toggle_fields =>
      let d0 := HelperHandlerNode.get_response_context helper_attrs
      let d1 := dictSet d0 "form" fv
      let d2 := dictSet d1 "toggle_fields" (.fieldsV final_toggle_fields)
      match hv with
      | .helperV h =>
        match h.layout with
        | some _ =>
          match fv with
          | .formV actual_form =>
            ([.resolveForm formVar, .renderLayout actual_form],
             .ok (dictSet d2 "form_html" (.str (h.render_layout actual_form))))
          | _ => ([.resolveForm formVar], .error (.typeError "render_layout expects a form"))
        | none => ([.resolveForm formVar], .ok (dictSet d2 "form_html" (.str "")))
      | other =>
        if other.truthy then ([.resolveForm formVar], .error (.attributeError "layout"))
        else ([.resolveForm formVar], .ok (dictSet d2 "form_html" (.str "")))

/-- `BasicFormsetNode.get_response_context`: reject a `toggle_fields`
attribute up front (NotImplementedError, before the formset variable is
even resolved), then resolve the formset, build the base response context,
store `formset`, and, when a helper with a layout is present, assign
`form_html` on every sub-form (an in-place mutation of the formset object,
modelled by returning the updated context binding and storing the updated
formset in the response). -/
def BasicFormsetNode.get_response_context (formsetVar : String) (ctx : TCtx)
    (hv : PyVal) (helper_attrs : AttrDict) :
    List Event × Except PyErr (TCtx × TCtx) :=
  if dictHasKey helper_attrs "toggle_fields" then
    ([], .error (.notImplementedError "toggle_fields not yet supported for formsets"))
  else
    match Variable.resolve formsetVar ctx with
    | .error e => ([.resolveFormset formsetVar], .error e)
    | .ok fv =>
      let d0 := HelperHandlerNode.get_response_context helper_attrs
      match hv with
      | .helperV h =>
        match h.layout with
        | some _ =>
          match fv with
          | .formsetV fs =>
            let rendered := fs.forms.map
              (fun form => { form with form_html := some (h.render_layout form) })
            let fs2 : Formset := ⟨rendered⟩
            ([.resolveFormset formsetVar] ++ fs.forms.map (fun form => .renderLayout form),
             .ok (dictSet d0 "formset" (.formsetV fs2),
                  dictSet ctx formsetVar (.formsetV fs2)))
          | _ => ([.resolveFormset formsetVar], .error (.attributeError "forms"))
        | none =>
          ([.resolveFormset formsetVar], .ok (dictSet d0 "formset" fv, ctx))
      | other =>
        if other.truthy then
          ([.resolveFormset formsetVar], .error (.attributeError "layout"))
        else
          ([.resolveFormset formsetVar], .ok (dictSet d0 "formset" fv, ctx))

/-- The `uni_form` tag node: the form variable name and the optional
helper variable name (`None` when the tag was invoked with only the form
argument). -/
structure UniFormNode where
  form : String
  helper : Option String
deriving DecidableEq

/-- The `uni_form_set` tag node: the formset variable name and the
optional helper variable name. -/
structure UniFormsetNode where
  formset : String
  helper : Option String
deriving DecidableEq

/-- `HelperHandlerNode.get_render` specialised to a `UniFormNode`:
resolve the helper variable, extract its attributes when it is truthy,
and delegate to `BasicNode.get_response_context`. -/
def UniFormNode.get_render (node : UniFormNode) (ctx : TCtx) :
    List Event × Except PyErr TCtx :=
  match resolveHelperVar node.helper ctx with
  | .error e => ([.resolveHelper node.helper], .error e)
  | .ok hv =>
    match helperGetAttrs hv with
    | (ev, .error e) => ([.resolveHelper node.helper] ++ ev, .error e)
    | (ev, .ok attrs) =>
      let r := BasicNode.get_response_context node.form ctx hv attrs
      ([.resolveHelper node.helper] ++ ev ++ r.1, r.2)

/-- `HelperHandlerNode.get_render` specialised to a `UniFormsetNode`:
resolve the helper variable, extract its attributes when it is truthy,
and delegate to `BasicFormsetNode.get_response_context`.  The successful
outcome is the response context paired with the (possibly mutated)
template context. -/
def UniFormsetNode.get_render (node : UniFormsetNode) (ctx : TCtx) :
    List Event × Except PyErr (TCtx × TCtx) :=
  match resolveHelperVar node.helper ctx with
  | .error e => ([.resolveHelper node.helper], .error e)
  | .ok hv =>
    match helperGetAttrs hv with
    | (ev, .error e) => ([.resolveHelper node.helper] ++ ev, .error e)
    | (ev, .ok attrs) =>
      let r := BasicFormsetNode.get_response_context node.formset ctx hv attrs
      ([.resolveHelper node.helper] ++ ev ++ r.1, r.2)

/-- `do_uni_form`: split the tag token into its contents, pop the form
variable name (IndexError when absent), and pop the helper variable name
when present, `None` otherwise. -/
def do_uni_form (tokens : List String) : Except PyErr UniFormNode :=
  match tokens with
  | _ :: form :: rest => .ok ⟨form, rest.head?⟩
  | _ => .error .indexError

/-- `do_uni_form_set`: same parsing as `do_uni_form`, building a formset
node. -/
def do_uni_form_set (tokens : List String) : Except PyErr UniFormsetNode :=
  match tokens with
  | _ :: formset :: rest => .ok ⟨formset, rest.head?⟩
  | _ => .error .indexError

/-- `uni_form_setup`: when `MEDIA_URL` is not already a key of the
context, set it to the framework media-URL setting; return the context. -/
def uni_form_setup (media_url : String) (context : TCtx) : TCtx :=
  if (context.lookup "MEDIA_URL").isSome then context
  else dictSet context "MEDIA_URL" (.str media_url)

/-! Concrete sample data, mirroring the forms and helpers of
src/uni_form/tests/tests.py, used to instantiate the theorems below. -/

def demoFieldCompany : Field := ⟨"is_company", "id_is_company"⟩

def demoFieldEmail : Field := ⟨"email", "id_email"⟩

def demoForm : Form := ⟨[demoFieldCompany, demoFieldEmail], none⟩

def demoFormset : Formset := ⟨[demoForm, demoForm]⟩

def demoLayout : Layout :=
  ⟨[⟨"", [.fieldName "is_company"]⟩,
    ⟨"Contact details", [.fieldName "email", .row ["password1", "password2"]]⟩]⟩

def demoRender (f : Form) : String :=
  "<fieldset>" ++ String.intercalate "," (f.fields.map (fun fl => fl.auto_id)) ++ "</fieldset>"

def demoAttrsToggle : AttrDict :=
  [("id", .str "this-form-rocks"), ("class", .str "forms-that-rock"),
   ("form_method", .str "GET"), ("toggle_fields", .toggles ["id_email"])]

def demoHelperToggle : Helper := ⟨demoAttrsToggle, some demoLayout, demoRender⟩

def demoHelperLayout : Helper := ⟨[("form_method", .str "GET")], some demoLayout, demoRender⟩

def demoHelperPlain : Helper := ⟨[("form_method", .str "GET")], none, demoRender⟩

/-- A dict update at a key not present in the dict appends the binding,
leaving every existing binding unchanged. -/
theorem dictSet_append_of_lookup_none (d : TCtx) (k : String) (v : PyVal)
    (h : d.lookup k = none) : dictSet d k v = d ++ [(k, v)] := by
  induction d with
  | nil => simp [dictSet]
  | cons kv rest ih =>
    obtain ⟨k2, v2⟩ := kv
    simp only [List.lookup] at h
    by_cases hk : k == k2
    · simp [hk] at h
    · have hkp : ¬k = k2 := by simpa using hk
      have hk2 : (k2 == k) = false := by
        simp only [beq_eq_false_iff_ne, ne_eq]
        exact fun he => hkp he.symm
      simp only [hk] at h
      simp [dictSet, hk2, ih h]

/-- C5: the base response context takes `form_method` from the helper
attribute mapping (default "POST"), `form_action` from the mapping
(default ""), `form_class` from the "class" key (default ""), `form_id`
from the "id" key (default ""), and `inputs` from the mapping (default
the empty list). -/
theorem C5_attribute_defaults (helper_attrs : AttrDict) :
    (∀ v, helper_attrs.lookup "form_method" = some v →
      (HelperHandlerNode.get_response_context helper_attrs).lookup "form_method"
        = some (.aval v)) ∧
    (helper_attrs.lookup "form_method" = none →
      (HelperHandlerNode.get_response_context helper_attrs).lookup "form_method"
        = some (.aval (.str "POST"))) ∧
    (∀ v, helper_attrs.lookup "form_action" = some v →
      (HelperHandlerNode.get_response_context helper_attrs).lookup "form_action"
        = some (.aval v)) ∧
    (helper_attrs.lookup "form_action" = none →
      (HelperHandlerNode.get_response_context helper_attrs).lookup "form_action"
        = some (.aval (.str ""))) ∧
    (∀ v, helper_attrs.lookup "class" = some v →
      (HelperHandlerNode.get_response_context helper_attrs).lookup "form_class"
        = some (.aval v)) ∧
    (helper_attrs.lookup "class" = none →
      (HelperHandlerNode.get_response_context helper_attrs).lookup "form_class"
        = some (.aval (.str ""))) ∧
    (∀ v, helper_attrs.lookup "id" = some v →
      (HelperHandlerNode.get_response_context helper_attrs).lookup "form_id"
        = some (.aval v)) ∧
    (helper_attrs.lookup "id" = none →
      (HelperHandlerNode.get_response_context helper_attrs).lookup "form_id"
        = some (.aval (.str ""))) ∧
    (∀ v, helper_attrs.lookup "inputs" = some v →
      (HelperHandlerNode.get_response_context helper_attrs).lookup "inputs"
        = some (.aval v)) ∧
    (helper_attrs.lookup "inputs" = none →
      (HelperHandlerNode.get_response_context helper_attrs).lookup "inputs"
        = some (.aval (.inputs []))) := by
  refine ⟨fun v hv => ?_, fun hv => ?_, fun v hv => ?_, fun hv => ?_, fun v hv => ?_,
    fun hv => ?_, fun v hv => ?_, fun hv => ?_, fun v hv => ?_, fun hv => ?_⟩ <;>
    simp [HelperHandlerNode.get_response_context, dictGet, hv, List.lookup]

/-- Witness for C5 at a concrete mapping: a present `form_method` is
passed through and an absent `form_action` falls back to "". -/
theorem C5_attribute_defaults_witness :
    (HelperHandlerNode.get_response_context demoAttrsToggle).lookup "form_method"
      = some (.aval (.str "GET")) ∧
    (HelperHandlerNode.get_response_context demoAttrsToggle).lookup "form_action"
      = some (.aval (.str "")) :=
  ⟨(C5_attribute_defaults demoAttrsToggle).1 (.str "GET") rfl,
   (C5_attribute_defaults demoAttrsToggle).2.2.2.1 rfl⟩

/-- C7: the setup directive leaves a context that already holds
`MEDIA_URL` completely unchanged (in particular it does not read the
framework setting), and on a context without that key it appends
`MEDIA_URL` bound to the framework setting, leaving every other entry
unchanged. -/
theorem C7_setup_media_url (media_url : String) (context : TCtx) :
    ((context.lookup "MEDIA_URL").isSome = true →
      uni_form_setup media_url context = context) ∧
    (context.lookup "MEDIA_URL" = none →
      uni_form_setup media_url context = context ++ [("MEDIA_URL", .str media_url)]) := by
  constructor
  · intro hsome
    simp [uni_form_setup, hsome]
  · intro hnone
    simp [uni_form_setup, hnone, dictSet_append_of_lookup_none]

/-- Witness for C7 at concrete contexts: an existing `MEDIA_URL` survives
untouched, and a missing one is filled in from the setting. -/
theorem C7_setup_media_url_witness :
    uni_form_setup "/media/" [("MEDIA_URL", .str "/custom/"), ("x", .pynone)]
      = [("MEDIA_URL", .str "/custom/"), ("x", .pynone)] ∧
    uni_form_setup "/media/" [("x", .pynone)]
      = [("x", .pynone), ("MEDIA_URL", .str "/media/")] :=
  ⟨(C7_setup_media_url "/media/" [("MEDIA_URL", .str "/custom/"), ("x", .pynone)]).1 rfl,
   (C7_setup_media_url "/media/" [("x", .pynone)]).2 rfl⟩

/-- The form-node response construction can record variable resolutions
and layout renderings, but never a `get_attr` invocation. -/
theorem getAttr_notin_basic_trace (formVar : String) (ctx : TCtx) (hv : PyVal)
    (attrs : AttrDict) :
    Event.getAttr ∉ (BasicNode.get_response_context formVar ctx hv attrs).1 := by
  unfold BasicNode.get_response_context
  repeat' split
  all_goals by_cases hc : (dictGet attrs "toggle_fields" (AVal.toggles [])).truthy = true
  all_goals simp [hc]

/-- The formset-node response construction can record variable
resolutions and layout renderings, but never a `get_attr` invocation. -/
theorem getAttr_notin_formset_trace (formsetVar : String) (ctx : TCtx) (hv : PyVal)
    (attrs : AttrDict) :
    Event.getAttr ∉ (BasicFormsetNode.get_response_context formsetVar ctx hv attrs).1 := by
  unfold BasicFormsetNode.get_response_context
  repeat' split
  all_goals simp

/-- C1: a helper whose attribute mapping contains the key
`toggle_fields` makes the formset directive fail with
NotImplementedError, whatever the context, formset and other attributes
are. -/
theorem C1_formset_toggle_fields_rejected (node : UniFormsetNode) (ctx : TCtx)
    (hname : String) (h : Helper)
    (hhelper : node.helper = some hname)
    (hctx : ctx.lookup hname = some (.helperV h))
    (htoggle : dictHasKey h.attrs "toggle_fields" = true) :
    (node.get_render ctx).2 =
      .error (.notImplementedError "toggle_fields not yet supported for formsets") := by
  simp [UniFormsetNode.get_render, resolveHelperVar, Variable.resolve, hhelper, hctx,
    helperGetAttrs, PyVal.truthy, BasicFormsetNode.get_response_context, htoggle]

/-- Witness for C1: the toggle-carrying helper of the test suite makes
the formset render fail on a concrete formset context. -/
theorem C1_formset_toggle_fields_rejected_witness :
    ((⟨"formset", some "formset_helper"⟩ : UniFormsetNode).get_render
        [("formset", .formsetV demoFormset), ("formset_helper", .helperV demoHelperToggle)]).2
      = .error (.notImplementedError "toggle_fields not yet supported for formsets") :=
  C1_formset_toggle_fields_rejected ⟨"formset", some "formset_helper"⟩
    [("formset", .formsetV demoFormset), ("formset_helper", .helperV demoHelperToggle)]
    "formset_helper" demoHelperToggle rfl rfl rfl

/-- C9: on the `toggle_fields`-on-formset error the render stops after
helper resolution and attribute extraction: the event trace shows the
formset variable was never resolved and no sub-form layout rendering ran,
so the formset and the context are untouched. -/
theorem C9_formset_toggle_error_atomic (node : UniFormsetNode) (ctx : TCtx)
    (hname : String) (h : Helper)
    (hhelper : node.helper = some hname)
    (hctx : ctx.lookup hname = some (.helperV h))
    (htoggle : dictHasKey h.attrs "toggle_fields" = true) :
    node.get_render ctx = ([.resolveHelper (some hname), .getAttr],
      .error (.notImplementedError "toggle_fields not yet supported for formsets")) ∧
    (∀ n, Event.resolveFormset n ∉ (node.get_render ctx).1) ∧
    (∀ f, Event.renderLayout f ∉ (node.get_render ctx).1) := by
  have hrun : node.get_render ctx = ([.resolveHelper (some hname), .getAttr],
      .error (.notImplementedError "toggle_fields not yet supported for formsets")) := by
    simp [UniFormsetNode.get_render, resolveHelperVar, Variable.resolve, hhelper, hctx,
      helperGetAttrs, PyVal.truthy, BasicFormsetNode.get_response_context, htoggle]
  refine ⟨hrun, ?_, ?_⟩ <;> intro x <;> rw [hrun] <;> simp

/-- Witness for C9: the trace of the failing concrete render holds only
the helper resolution and the attribute extraction. -/
theorem C9_formset_toggle_error_atomic_witness :
    (⟨"formset", some "formset_helper"⟩ : UniFormsetNode).get_render
        [("formset", .formsetV demoFormset), ("formset_helper", .helperV demoHelperToggle)]
      = ([.resolveHelper (some "formset_helper"), .getAttr],
         .error (.notImplementedError "toggle_fields not yet supported for formsets")) ∧
    (∀ n, Event.resolveFormset n ∉
      ((⟨"formset", some "formset_helper"⟩ : UniFormsetNode).get_render
        [("formset", .formsetV demoFormset), ("formset_helper", .helperV demoHelperToggle)]).1) ∧
    (∀ f, Event.renderLayout f ∉
      ((⟨"formset", some "formset_helper"⟩ : UniFormsetNode).get_render
        [("formset", .formsetV demoFormset), ("formset_helper", .helperV demoHelperToggle)]).1) :=
  C9_formset_toggle_error_atomic ⟨"formset", some "formset_helper"⟩
    [("formset", .formsetV demoFormset), ("formset_helper", .helperV demoHelperToggle)]
    "formset_helper" demoHelperToggle rfl rfl rfl

/-- C10: a helper variable that resolves to a falsy value (`None`
included) never has `get_attr` called on it: the attribute-extraction
step returns the empty mapping without any method invocation, and the
traces of both directive renders contain no `get_attr` event. -/
theorem C10_falsy_helper_skips_get_attr (fnode : UniFormNode) (snode : UniFormsetNode)
    (ctx : TCtx) (hv1 hv2 : PyVal)
    (h1 : resolveHelperVar fnode.helper ctx = .ok hv1) (hf1 : hv1.truthy = false)
    (h2 : resolveHelperVar snode.helper ctx = .ok hv2) (hf2 : hv2.truthy = false) :
    helperGetAttrs hv1 = ([], .ok []) ∧
    Event.getAttr ∉ (fnode.get_render ctx).1 ∧
    Event.getAttr ∉ (snode.get_render ctx).1 := by
  have hga1 : helperGetAttrs hv1 = ([], .ok []) := by simp [helperGetAttrs, hf1]
  have hga2 : helperGetAttrs hv2 = ([], .ok []) := by simp [helperGetAttrs, hf2]
  refine ⟨hga1, ?_, ?_⟩
  · simp only [UniFormNode.get_render, h1, hga1]
    simp [getAttr_notin_basic_trace]
  · simp only [UniFormsetNode.get_render, h2, hga2]
    simp [getAttr_notin_formset_trace]

/-- Witness for C10: both directives invoked with the helper argument
omitted resolve it to `None` and never call `get_attr`. -/
theorem C10_falsy_helper_skips_get_attr_witness :
    helperGetAttrs .pynone = ([], .ok []) ∧
    Event.getAttr ∉ ((⟨"form", none⟩ : UniFormNode).get_render
      [("form", .formV demoForm), ("formset", .formsetV demoFormset)]).1 ∧
    Event.getAttr ∉ ((⟨"formset", none⟩ : UniFormsetNode).get_render
      [("form", .formV demoForm), ("formset", .formsetV demoFormset)]).1 :=
  C10_falsy_helper_skips_get_attr ⟨"form", none⟩ ⟨"formset", none⟩
    [("form", .formV demoForm), ("formset", .formsetV demoFormset)] .pynone .pynone
    rfl rfl rfl rfl

/-- C3: with a helper whose mapping binds `toggle_fields` to a set `S`,
the whole-form render succeeds and its context binds `toggle_fields` to
exactly the fields of the form whose `auto_id` lies in `S`, in field
order; with the key absent, the context binds `toggle_fields` to the
empty list. -/
theorem C3_toggle_fields_partition (node : UniFormNode) (ctx : TCtx)
    (f : Form) (hname : String) (h : Helper)
    (hhelper : node.helper = some hname)
    (hctx : ctx.lookup hname = some (.helperV h))
    (hform : ctx.lookup node.form = some (.formV f)) :
    (∀ S, h.attrs.lookup "toggle_fields" = some (.toggles S) →
      ∃ resp, (node.get_render ctx).2 = .ok resp ∧
        resp.lookup "toggle_fields" =
          some (.fieldsV (f.fields.filter (fun field => S.contains field.auto_id)))) ∧
    (h.attrs.lookup "toggle_fields" = none →
      ∃ resp, (node.get_render ctx).2 = .ok resp ∧
        resp.lookup "toggle_fields" = some (.fieldsV [])) := by
  have hstep : (node.get_render ctx).2
      = (BasicNode.get_response_context node.form ctx (.helperV h) h.attrs).2 := by
    simp [UniFormNode.get_render, resolveHelperVar, Variable.resolve, hhelper, hctx,
      helperGetAttrs, PyVal.truthy]
  rw [hstep]
  constructor
  · intro S hS
    by_cases hSe : S.isEmpty = true
    · rw [List.isEmpty_iff] at hSe
      subst hSe
      cases hl : h.layout with
      | none =>
        simp [BasicNode.get_response_context, Variable.resolve, hform, dictGet, hS,
          AVal.truthy, hl, dictSet, HelperHandlerNode.get_response_context, List.lookup]
      | some l =>
        simp [BasicNode.get_response_context, Variable.resolve, hform, dictGet, hS,
          AVal.truthy, hl, dictSet, HelperHandlerNode.get_response_context, List.lookup]
    · have hSne : S.isEmpty = false := by simpa using hSe
      cases hl : h.layout with
      | none =>
        simp [BasicNode.get_response_context, Variable.resolve, hform, dictGet, hS,
          AVal.truthy, hSne, PyVal.iterFields, hl, dictSet,
          HelperHandlerNode.get_response_context, List.lookup, AVal.memStr]
      | some l =>
        simp [BasicNode.get_response_context, Variable.resolve, hform, dictGet, hS,
          AVal.truthy, hSne, PyVal.iterFields, hl, dictSet,
          HelperHandlerNode.get_response_context, List.lookup, AVal.memStr]
  · intro hnone
    cases hl : h.layout with
    | none =>
      simp [BasicNode.get_response_context, Variable.resolve, hform, dictGet, hnone,
        AVal.truthy, hl, dictSet, HelperHandlerNode.get_response_context, List.lookup]
    | some l =>
      simp [BasicNode.get_response_context, Variable.resolve, hform, dictGet, hnone,
        AVal.truthy, hl, dictSet, HelperHandlerNode.get_response_context, List.lookup]

/-- Witness for C3: on the test form, the helper whose toggle set holds
`id_email` yields exactly the email field as toggle field. -/
theorem C3_toggle_fields_partition_witness :
    ∃ resp, (((⟨"form", some "form_helper"⟩ : UniFormNode)).get_render
        [("form", .formV demoForm), ("form_helper", .helperV demoHelperToggle)]).2
        = .ok resp ∧
      resp.lookup "toggle_fields" = some (.fieldsV [demoFieldEmail]) := by
  have hmain := (C3_toggle_fields_partition ⟨"form", some "form_helper"⟩
    [("form", .formV demoForm), ("form_helper", .helperV demoHelperToggle)]
    demoForm "form_helper" demoHelperToggle rfl rfl rfl).1 ["id_email"] rfl
  simpa [demoForm, demoFieldCompany, demoFieldEmail] using hmain

/-- C4: the whole-form response context binds `form_html` to the
helper's layout rendering of the form when the resolved helper carries a
layout, and to the empty string when the helper carries no layout or is
absent (`None`); in both of the latter cases the event trace shows no
`render_layout` call. -/
theorem C4_form_html (node : UniFormNode) (ctx : TCtx) (f : Form) (hv : PyVal)
    (hres : resolveHelperVar node.helper ctx = .ok hv)
    (hform : ctx.lookup node.form = some (.formV f)) :
    (∀ h, hv = .helperV h → h.layout.isSome = true →
      ∃ resp, (node.get_render ctx).2 = .ok resp ∧
        resp.lookup "form_html" = some (.str (h.render_layout f))) ∧
    (∀ h, hv = .helperV h → h.layout = none →
      ∃ resp, (node.get_render ctx).2 = .ok resp ∧
        resp.lookup "form_html" = some (.str "") ∧
        ∀ g, Event.renderLayout g ∉ (node.get_render ctx).1) ∧
    (hv = .pynone →
      ∃ resp, (node.get_render ctx).2 = .ok resp ∧
        resp.lookup "form_html" = some (.str "") ∧
        ∀ g, Event.renderLayout g ∉ (node.get_render ctx).1) := by
  refine ⟨?_, ?_, ?_⟩
  · rintro h rfl hl
    rw [Option.isSome_iff_exists] at hl
    obtain ⟨l, hl⟩ := hl
    by_cases htog : (dictGet h.attrs "toggle_fields" (AVal.toggles [])).truthy = true
    · simp [UniFormNode.get_render, hres, helperGetAttrs, PyVal.truthy,
        BasicNode.get_response_context, Variable.resolve, hform, htog, PyVal.iterFields,
        hl, dictSet, HelperHandlerNode.get_response_context, List.lookup]
    · simp [UniFormNode.get_render, hres, helperGetAttrs, PyVal.truthy,
        BasicNode.get_response_context, Variable.resolve, hform, htog, hl, dictSet,
        HelperHandlerNode.get_response_context, List.lookup]
  · rintro h rfl hl
    by_cases htog : (dictGet h.attrs "toggle_fields" (AVal.toggles [])).truthy = true
    · simp [UniFormNode.get_render, hres, helperGetAttrs, PyVal.truthy,
        BasicNode.get_response_context, Variable.resolve, hform, htog, PyVal.iterFields,
        hl, dictSet, HelperHandlerNode.get_response_context, List.lookup]
    · simp [UniFormNode.get_render, hres, helperGetAttrs, PyVal.truthy,
        BasicNode.get_response_context, Variable.resolve, hform, htog, hl, dictSet,
        HelperHandlerNode.get_response_context, List.lookup]
  · rintro rfl
    by_cases htog : (dictGet ([] : AttrDict) "toggle_fields" (AVal.toggles [])).truthy = true
    · simp [dictGet, AVal.truthy] at htog
    · simp [UniFormNode.get_render, hres, helperGetAttrs, PyVal.truthy,
        BasicNode.get_response_context, Variable.resolve, hform, htog, dictSet,
        HelperHandlerNode.get_response_context, List.lookup]

/-- Witness for C4: the layout-carrying helper yields the rendered
markup of the test form, and the layout-free helper yields the empty
string with no `render_layout` event. -/
theorem C4_form_html_witness :
    (∃ resp, (((⟨"form", some "form_helper"⟩ : UniFormNode)).get_render
        [("form", .formV demoForm), ("form_helper", .helperV demoHelperLayout)]).2
        = .ok resp ∧
      resp.lookup "form_html" = some (.str (demoHelperLayout.render_layout demoForm))) ∧
    (∃ resp, (((⟨"form", some "plain_helper"⟩ : UniFormNode)).get_render
        [("form", .formV demoForm), ("plain_helper", .helperV demoHelperPlain)]).2
        = .ok resp ∧
      resp.lookup "form_html" = some (.str "") ∧
      ∀ g, Event.renderLayout g ∉
        (((⟨"form", some "plain_helper"⟩ : UniFormNode)).get_render
          [("form", .formV demoForm), ("plain_helper", .helperV demoHelperPlain)]).1) :=
  ⟨(C4_form_html ⟨"form", some "form_helper"⟩
      [("form", .formV demoForm), ("form_helper", .helperV demoHelperLayout)]
      demoForm (.helperV demoHelperLayout) rfl rfl).1 demoHelperLayout rfl rfl,
   ((C4_form_html ⟨"form", some "plain_helper"⟩
      [("form", .formV demoForm), ("plain_helper", .helperV demoHelperPlain)]
      demoForm (.helperV demoHelperPlain) rfl rfl).2.1 demoHelperPlain rfl rfl)⟩

/-- C6: the whole-form tag invoked with only the form argument parses to
a node without a helper variable, and rendering it succeeds with the
default attributes: method POST, empty action, empty class, empty id,
empty inputs, the empty attribute mapping, and empty layout markup. -/
theorem C6_helper_optional (formVar : String) (ctx : TCtx) (f : Form)
    (hform : ctx.lookup formVar = some (.formV f)) :
    ∃ node, do_uni_form ["uni_form", formVar] = .ok node ∧ node.helper = none ∧
      ∃ resp, (node.get_render ctx).2 = .ok resp ∧
        resp.lookup "form_method" = some (.aval (.str "POST")) ∧
        resp.lookup "form_action" = some (.aval (.str "")) ∧
        resp.lookup "form_class" = some (.aval (.str "")) ∧
        resp.lookup "form_id" = some (.aval (.str "")) ∧
        resp.lookup "inputs" = some (.aval (.inputs [])) ∧
        resp.lookup "attrs" = some (.attrsD []) ∧
        resp.lookup "form_html" = some (.str "") := by
  refine ⟨⟨formVar, none⟩, rfl, rfl, ?_⟩
  simp [UniFormNode.get_render, resolveHelperVar, helperGetAttrs, PyVal.truthy,
    BasicNode.get_response_context, Variable.resolve, hform, dictGet, AVal.truthy,
    dictSet, HelperHandlerNode.get_response_context, List.lookup]

/-- Witness for C6 on the concrete test form. -/
theorem C6_helper_optional_witness :
    ∃ node, do_uni_form ["uni_form", "form"] = .ok node ∧ node.helper = none ∧
      ∃ resp, (node.get_render [("form", .formV demoForm)]).2 = .ok resp ∧
        resp.lookup "form_method" = some (.aval (.str "POST")) ∧
        resp.lookup "form_action" = some (.aval (.str "")) ∧
        resp.lookup "form_class" = some (.aval (.str "")) ∧
        resp.lookup "form_id" = some (.aval (.str "")) ∧
        resp.lookup "inputs" = some (.aval (.inputs [])) ∧
        resp.lookup "attrs" = some (.attrsD []) ∧
        resp.lookup "form_html" = some (.str "") :=
  C6_helper_optional "form" [("form", .formV demoForm)] demoForm rfl

/-- C8: with a helper, a form and a formset all resolvable (and no
`toggle_fields` attribute, which the formset directive rejects), the
whole-form response context consists of exactly the keys `form_action`,
`form_method`, `attrs`, `form_class`, `form_id`, `inputs`, `form`,
`toggle_fields`, `form_html` with `attrs` bound to the full helper
mapping, and the whole-formset response context of exactly those base
keys plus `formset`. -/
theorem C8_response_context_keys (fnode : UniFormNode) (snode : UniFormsetNode)
    (ctx : TCtx) (f : Form) (fs : Formset) (hname : String) (h : Helper)
    (hh1 : fnode.helper = some hname) (hh2 : snode.helper = some hname)
    (hctx : ctx.lookup hname = some (.helperV h))
    (hform : ctx.lookup fnode.form = some (.formV f))
    (hfs : ctx.lookup snode.formset = some (.formsetV fs))
    (hnotog : dictHasKey h.attrs "toggle_fields" = false) :
    (∃ resp, (fnode.get_render ctx).2 = .ok resp ∧
      resp.map Prod.fst = ["form_action", "form_method", "attrs", "form_class",
        "form_id", "inputs", "form", "toggle_fields", "form_html"] ∧
      resp.lookup "attrs" = some (.attrsD h.attrs)) ∧
    (∃ resp ctx2, (snode.get_render ctx).2 = .ok (resp, ctx2) ∧
      resp.map Prod.fst = ["form_action", "form_method", "attrs", "form_class",
        "form_id", "inputs", "formset"]) := by
  have hlook : h.attrs.lookup "toggle_fields" = none := by
    cases hcase : h.attrs.lookup "toggle_fields" with
    | none => rfl
    | some v =>
      rw [dictHasKey, hcase] at hnotog
      simp at hnotog
  have htog : dictGet h.attrs "toggle_fields" (AVal.toggles []) = AVal.toggles [] := by
    simp [dictGet, hlook]
  constructor
  · cases hl : h.layout with
    | none =>
      simp [UniFormNode.get_render, resolveHelperVar, Variable.resolve, hh1, hctx,
        helperGetAttrs, PyVal.truthy, BasicNode.get_response_context, hform, htog,
        AVal.truthy, hl, dictSet, HelperHandlerNode.get_response_context, List.lookup]
    | some l =>
      simp [UniFormNode.get_render, resolveHelperVar, Variable.resolve, hh1, hctx,
        helperGetAttrs, PyVal.truthy, BasicNode.get_response_context, hform, htog,
        AVal.truthy, hl, dictSet, HelperHandlerNode.get_response_context, List.lookup]
  · cases hl : h.layout with
    | none =>
      simp [UniFormsetNode.get_render, resolveHelperVar, Variable.resolve, hh2, hctx,
        helperGetAttrs, PyVal.truthy, BasicFormsetNode.get_response_context, hfs,
        hnotog, hl, dictSet, HelperHandlerNode.get_response_context, List.lookup]
    | some l =>
      simp [UniFormsetNode.get_render, resolveHelperVar, Variable.resolve, hh2, hctx,
        helperGetAttrs, PyVal.truthy, BasicFormsetNode.get_response_context, hfs,
        hnotog, hl, dictSet, HelperHandlerNode.get_response_context, List.lookup]

/-- Witness for C8 with the layout-carrying helper on the test form and
formset. -/
theorem C8_response_context_keys_witness :
    (∃ resp, (((⟨"form", some "h"⟩ : UniFormNode)).get_render
        [("form", .formV demoForm), ("formset", .formsetV demoFormset),
         ("h", .helperV demoHelperLayout)]).2 = .ok resp ∧
      resp.map Prod.fst = ["form_action", "form_method", "attrs", "form_class",
        "form_id", "inputs", "form", "toggle_fields", "form_html"] ∧
      resp.lookup "attrs" = some (.attrsD demoHelperLayout.attrs)) ∧
    (∃ resp ctx2, (((⟨"formset", some "h"⟩ : UniFormsetNode)).get_render
        [("form", .formV demoForm), ("formset", .formsetV demoFormset),
         ("h", .helperV demoHelperLayout)]).2 = .ok (resp, ctx2) ∧
      resp.map Prod.fst = ["form_action", "form_method", "attrs", "form_class",
        "form_id", "inputs", "formset"]) :=
  C8_response_context_keys ⟨"form", some "h"⟩ ⟨"formset", some "h"⟩
    [("form", .formV demoForm), ("formset", .formsetV demoFormset),
     ("h", .helperV demoHelperLayout)]
    demoForm demoFormset "h" demoHelperLayout rfl rfl rfl rfl rfl rfl

/-- C2: the whole-formset render assigns `form_html` on each sub-form
(the helper's layout rendering of that sub-form) exactly when the
resolved helper is present and carries a layout; when the helper carries
no layout or is absent, the formset and the context binding are left
unchanged, so no sub-form gains a `form_html` attribute. -/
theorem C2_formset_form_html_iff (node : UniFormsetNode) (ctx : TCtx)
    (fs : Formset) (hv : PyVal)
    (hres : resolveHelperVar node.helper ctx = .ok hv)
    (hfs : ctx.lookup node.formset = some (.formsetV fs)) :
    (∀ h, hv = .helperV h → dictHasKey h.attrs "toggle_fields" = false →
        h.layout.isSome = true →
      ∃ resp ctx2, (node.get_render ctx).2 = .ok (resp, ctx2) ∧
        resp.lookup "formset" = some (.formsetV ⟨fs.forms.map
          (fun form => { form with form_html := some (h.render_layout form) })⟩) ∧
        ctx2 = dictSet ctx node.formset (.formsetV ⟨fs.forms.map
          (fun form => { form with form_html := some (h.render_layout form) })⟩)) ∧
    (∀ h, hv = .helperV h → dictHasKey h.attrs "toggle_fields" = false →
        h.layout = none →
      ∃ resp ctx2, (node.get_render ctx).2 = .ok (resp, ctx2) ∧
        resp.lookup "formset" = some (.formsetV fs) ∧ ctx2 = ctx) ∧
    (hv = .pynone →
      ∃ resp ctx2, (node.get_render ctx).2 = .ok (resp, ctx2) ∧
        resp.lookup "formset" = some (.formsetV fs) ∧ ctx2 = ctx) := by
  refine ⟨?_, ?_, ?_⟩
  · rintro h rfl hnotog hl
    rw [Option.isSome_iff_exists] at hl
    obtain ⟨l, hl⟩ := hl
    simp [UniFormsetNode.get_render, hres, helperGetAttrs, PyVal.truthy,
      BasicFormsetNode.get_response_context, hnotog, Variable.resolve, hfs, hl,
      dictSet, HelperHandlerNode.get_response_context, List.lookup]
  · rintro h rfl hnotog hl
    simp [UniFormsetNode.get_render, hres, helperGetAttrs, PyVal.truthy,
      BasicFormsetNode.get_response_context, hnotog, Variable.resolve, hfs, hl,
      dictSet, HelperHandlerNode.get_response_context, List.lookup]
  · rintro rfl
    simp [UniFormsetNode.get_render, hres, helperGetAttrs, PyVal.truthy,
      BasicFormsetNode.get_response_context, dictHasKey, Variable.resolve, hfs,
      dictSet, HelperHandlerNode.get_response_context, List.lookup]

/-- Witness for C2: the layout-carrying helper stamps each of the two
test sub-forms with its rendered markup, while the layout-free helper
leaves the formset untouched. -/
theorem C2_formset_form_html_iff_witness :
    (∃ resp ctx2, (((⟨"formset", some "h"⟩ : UniFormsetNode)).get_render
        [("formset", .formsetV demoFormset), ("h", .helperV demoHelperLayout)]).2
        = .ok (resp, ctx2) ∧
      resp.lookup "formset" = some (.formsetV ⟨demoFormset.forms.map
        (fun form => { form with
          form_html := some (demoHelperLayout.render_layout form) })⟩) ∧
      ctx2 = dictSet [("formset", .formsetV demoFormset), ("h", .helperV demoHelperLayout)]
        "formset" (.formsetV ⟨demoFormset.forms.map
          (fun form => { form with
            form_html := some (demoHelperLayout.render_layout form) })⟩)) ∧
    (∃ resp ctx2, (((⟨"formset", some "p"⟩ : UniFormsetNode)).get_render
        [("formset", .formsetV demoFormset), ("p", .helperV demoHelperPlain)]).2
        = .ok (resp, ctx2) ∧
      resp.lookup "formset" = some (.formsetV demoFormset) ∧
      ctx2 = [("formset", .formsetV demoFormset), ("p", .helperV demoHelperPlain)]) :=
  ⟨(C2_formset_form_html_iff ⟨"formset", some "h"⟩
      [("formset", .formsetV demoFormset), ("h", .helperV demoHelperLayout)]
      demoFormset (.helperV demoHelperLayout) rfl rfl).1 demoHelperLayout rfl rfl rfl,
   (C2_formset_form_html_iff ⟨"formset", some "p"⟩
      [("formset", .formsetV demoFormset), ("p", .helperV demoHelperPlain)]
      demoFormset (.helperV demoHelperPlain) rfl rfl).2.1 demoHelperPlain rfl rfl rfl⟩

end UniForm
